import Mathlib

/-!
Verification of the auth-service core of the dashboard-personal repository.

The definitions below are a shallow embedding of the Python sources under
`apps/auth-service/` (`totp.py`, `security.py`, `database.py`, `audit.py`,
`main.py`).  Pure Python functions become Lean functions on `String`,
`List Char`, `Int` and `Option`; the SQLite tables become lists of records;
Python code that can raise an exception returns an `Option` (with `none`
standing for a raised exception); Python truthiness of optional strings is
made explicit.  Character-level operations (`lower`, `upper`, `strip`,
`isdigit`) are modelled on their ASCII behaviour, which is the range
exercised by the service.
-/

namespace AuthService

/-! ### Python string primitives -/

/-- Characters removed by Python `str.strip()` (ASCII whitespace). -/
def isPySpace (c : Char) : Bool :=
  c == ' ' || c == '\t' || c == '\n' || c == '\x0d' || c == '\x0b' || c == '\x0c'

/-- Python `str.strip()` on a character list. -/
def pyStripL (l : List Char) : List Char :=
  ((l.dropWhile isPySpace).reverse.dropWhile isPySpace).reverse

/-- Python `str.strip()`. -/
def pyStrip (s : String) : String :=
  ⟨pyStripL s.data⟩

/-- Python `str.lower()` (ASCII case mapping). -/
def asciiLower (s : String) : String :=
  ⟨s.data.map Char.toLower⟩

/-- Python `str.upper()` (ASCII case mapping). -/
def asciiUpper (s : String) : String :=
  ⟨s.data.map Char.toUpper⟩

/-- Python `str.replace(c, "")`: delete every occurrence of a character. -/
def removeChar (s : String) (bad : Char) : String :=
  ⟨s.data.filter (fun c => c != bad)⟩

/-- Python truthiness of an optional string: `None` and `""` are falsy. -/
def pyTruthyOptStr : Option String → Bool
  | none => false
  | some s => decide (s ≠ "")

/-! ### totp.py — TOTP engine

`verify_totp` delegates the cryptographic step to the external `pyotp`
library.  We embed `pyotp`'s control flow exactly — the Base32 decoding of
the secret (which raises on a malformed secret), the rejection of negative
counters, and the ±`valid_window` comparison loop of `TOTP.verify` — while
abstracting only the HMAC-SHA1 digest itself as a parameter
`digits : String → Int → String` giving the one-time code of a secret at a
time step. -/

/-- The RFC 4648 Base32 alphabet used by `base64.b32decode`. -/
def B32ALPHABET : List Char := "ABCDEFGHIJKLMNOPQRSTUVWXYZ234567".data

/-- `pyotp.OTP.byte_secret` pads the secret with `=` to a multiple of 8. -/
def pyotpPad (s : String) : String :=
  let m := s.length % 8
  if m = 0 then s else s ++ ⟨List.replicate (8 - m) '='⟩

/-- Whether `base64.b32decode(s, casefold=True)` succeeds (does not raise).
It requires ASCII input of length a multiple of 8; after upper-casing and
stripping trailing padding, every character must be in the Base32 alphabet
and the number of padding characters must be 0, 1, 3, 4 or 6. -/
def b32decodeOk (s : String) : Bool :=
  let l := s.data
  (l.all (fun c => decide (c.toNat < 128))) &&
  (l.length % 8 == 0) &&
  (let u := l.map Char.toUpper
   let stripped := (u.reverse.dropWhile (fun c => c == '=')).reverse
   let padchars := u.length - stripped.length
   stripped.all (fun c => decide (c ∈ B32ALPHABET)) &&
     (padchars == 0 || padchars == 1 || padchars == 3 || padchars == 4 || padchars == 6))

/-- Whether `pyotp.OTP.byte_secret()` succeeds for this secret. -/
def pyotp_byte_secret_ok (secret : String) : Bool :=
  b32decodeOk (pyotpPad secret)

/-- `pyotp.OTP.generate_otp(input)`: raises (`none`) on a negative counter
or a secret that Base32 decoding rejects; otherwise produces the one-time
code, abstracted by `digits`. -/
def generate_otp (digits : String → Int → String) (secret : String) (input : Int) :
    Option String :=
  if input < 0 then none
  else if pyotp_byte_secret_ok secret then some (digits secret input) else none

/-- `pyotp.utils.strings_equal(s1, s2)`: both sides are NFKC-normalised
(`unicodedata.normalize("NFKC", s)`) and compared in constant time —
observably, equality of the NFKC forms.  NFKC itself is Unicode character
data, so the normaliser `nfkc` is a parameter of the embedding,
constrained in theorems only by facts true of Unicode (an ASCII digit
string is NFKC-fixed). -/
def strings_equal (nfkc : String → String) (s1 s2 : String) : Bool :=
  nfkc s1 == nfkc s2

/-- `pyotp.TOTP.verify(code, valid_window=1)` at time step `t`: compare the
submitted code against the codes of steps `t-1`, `t` and `t+1` in order
via `strings_equal`, propagating any exception raised while generating
them. -/
def totp_verify (nfkc : String → String) (digits : String → Int → String)
    (secret code : String) (t : Int) : Option Bool :=
  match generate_otp digits secret (t - 1) with
  | none => none
  | some c1 =>
    if strings_equal nfkc code c1 then some true
    else
      match generate_otp digits secret t with
      | none => none
      | some c2 =>
        if strings_equal nfkc code c2 then some true
        else
          match generate_otp digits secret (t + 1) with
          | none => none
          | some c3 => some (strings_equal nfkc code c3)

/-- `code.replace(" ", "").replace("-", "")` from `verify_totp`. -/
def stripSpacesHyphens (code : String) : String :=
  removeChar (removeChar code ' ') '-'

/-- Python `str.isdigit()`: nonempty and every character a Unicode digit.
Which characters are digits (all of `0`-`9`, but also e.g. the
Arabic-Indic and fullwidth digits) is Unicode character data, so the
per-character predicate `uIsDigit` is a parameter of the embedding,
constrained in theorems only by facts true of Unicode (an ASCII digit is
a digit). -/
def pyIsDigitStr (uIsDigit : Char → Bool) (s : String) : Bool :=
  s.data.all uIsDigit && decide (s ≠ "")

/-- The gate `code.isdigit() and len(code) == 6` of `verify_totp`. -/
def pySixDigits (uIsDigit : Char → Bool) (s : String) : Bool :=
  pyIsDigitStr uIsDigit s && s.length == 6

/-- The spec's wording "exactly 6 ASCII digits" — a spec-side notion used
to state the claims; deliberately narrower than the program's
`pySixDigits` gate, which admits non-ASCII Unicode digits. -/
def isSixAsciiDigitString (s : String) : Bool :=
  s.data.all Char.isDigit && s.length == 6

/-- `totp.verify_totp(secret, code)`: the repository function, with the
time step `t`, the Unicode digit predicate `uIsDigit`, the NFKC
normaliser `nfkc` and the abstract digest `digits` made explicit.  `none`
models a raised exception. -/
def verify_totp (uIsDigit : Char → Bool) (nfkc : String → String)
    (digits : String → Int → String) (secret code : String) (t : Int) : Option Bool :=
  if secret = "" ∨ code = "" then some false
  else
    let c := stripSpacesHyphens code
    if pySixDigits uIsDigit c then totp_verify nfkc digits secret c t
    else some false

/-! ### totp.py — backup codes -/

/-- Python `s.split(",")` on a character list: always returns at least one
(possibly empty) chunk, and splits at every comma. -/
def splitCommaL : List Char → List (List Char)
  | [] => [[]]
  | c :: rest =>
    let r := splitCommaL rest
    if c = ',' then [] :: r else (c :: r.headI) :: r.tail

/-- Python `s.split(",")`. -/
def splitComma (s : String) : List String :=
  (splitCommaL s.data).map (fun l => ⟨l⟩)

/-- Python `",".join(l)` on character lists. -/
def joinCommaL : List (List Char) → List Char
  | [] => []
  | [x] => x
  | x :: y :: t => x ++ ',' :: joinCommaL (y :: t)

/-- Python `",".join(l)`. -/
def joinComma (l : List String) : String :=
  ⟨joinCommaL (l.map String.data)⟩

/-- The normalisation applied to a submitted backup code:
`code.upper().replace(" ", "")`, then insert the `XXXX-XXXX` hyphen when
the result is 8 characters without a hyphen. -/
def normalize_backup_code (code : String) : String :=
  let c := removeChar (asciiUpper code) ' '
  if ¬ c.data.contains '-' ∧ c.length = 8 then
    ⟨c.data.take 4⟩ ++ "-" ++ ⟨c.data.drop 4⟩
  else c

/-- `totp.verify_backup_code(stored_codes, code)`.  The stored
representation is nullable in the database, hence `Option String`. -/
def verify_backup_code (stored : Option String) (code : String) :
    Bool × Option String :=
  if pyTruthyOptStr stored = false ∨ code = "" then (false, stored)
  else
    let s := stored.getD ""
    let c := normalize_backup_code code
    let codes := splitComma s
    if c ∈ codes then
      let codes2 := codes.erase c
      (true, if codes2 = [] then none else some (joinComma codes2))
    else (false, stored)

/-- `totp.get_backup_codes_count(stored_codes)`. -/
def get_backup_codes_count (stored : Option String) : Nat :=
  if pyTruthyOptStr stored = false then 0
  else (splitComma (stored.getD "")).length

/-! ### security.py — redirect validation

`validate_redirect_url` relies on `urllib.parse.urlparse` for absolute
URLs.  We embed the part of CPython's `urlsplit` that the function reads —
removal of unsafe bytes, the scheme split, the netloc split and the
bracket validation that can raise `ValueError` (modelled as `none`; the
caller turns any exception into the default). -/

/-- The redirect host allow-list from `security.py`. -/
def ALLOWED_REDIRECT_HOSTS : List String :=
  ["keonycs.com", "www.keonycs.com", "localhost", "127.0.0.1"]

/-- CPython `urlsplit` input cleaning: strip leading C0-control-or-space
characters, then delete every tab, carriage return and line feed. -/
def urlsplitClean (l : List Char) : List Char :=
  (l.dropWhile (fun c => decide (c.toNat ≤ 32))).filter
    (fun c => !(c == '\t' || c == '\x0d' || c == '\n'))

/-- The characters allowed in a URL scheme (`scheme_chars`). -/
def schemeChar (c : Char) : Bool :=
  c.isAlpha || c.isDigit || c == '+' || c == '-' || c == '.'

/-- The scheme split of `urlsplit`: at the first `:`, provided it is not
the first character, the first character is an ASCII letter and everything
before the colon is a scheme character; the scheme is lower-cased. -/
def splitScheme (l : List Char) : String × List Char :=
  match l.findIdx? (fun c => c == ':') with
  | none => ("", l)
  | some i =>
    if 0 < i ∧ l.head?.any Char.isAlpha = true ∧ (l.take i).all schemeChar = true then
      (asciiLower ⟨l.take i⟩, l.drop (i + 1))
    else ("", l)

/-- `_splitnetloc`: the netloc runs up to the first `/`, `?` or `#`. -/
def splitNetlocChars (l : List Char) : List Char :=
  l.takeWhile (fun c => !(c == '/' || c == '?' || c == '#'))

/-- The `(scheme, netloc)` view of `urlparse(s)`; `none` models the
`ValueError` raised on unbalanced IPv6 brackets in the netloc. -/
def urlparse_scheme_netloc (s : String) : Option (String × String) :=
  let l := urlsplitClean s.data
  let sn := splitScheme l
  if sn.2.take 2 = ['/', '/'] then
    let netloc := splitNetlocChars (sn.2.drop 2)
    if ('[' ∈ netloc ∧ ']' ∉ netloc) ∨ (']' ∈ netloc ∧ '[' ∉ netloc) then none
    else some (sn.1, ⟨netloc⟩)
  else some (sn.1, "")

/-- `security.validate_redirect_url(url, default)`. -/
def validate_redirect_url (url : String) (default : String) : String :=
  if url = "" then default
  else
    let u := pyStripL url.data
    if u.take 1 = ['/'] then
      if u.take 2 = ['/', '/'] then default
      else if '\\' ∈ u then default
      else ⟨u⟩
    else
      match urlparse_scheme_netloc ⟨u⟩ with
      | none => default
      | some sn =>
        if sn.1 ≠ "http" ∧ sn.1 ≠ "https" then default
        else if sn.2 ≠ "" ∧ asciiLower sn.2 ∉ ALLOWED_REDIRECT_HOSTS then default
        else ⟨u⟩

/-! ### security.py — role validation -/

/-- The role set from `security.py`. -/
def VALID_ROLES : List String := ["user", "admin"]

/-- `security.validate_role(role)`: the argument is nullable at the call
sites, and Python's truthiness check treats `None` and `""` alike. -/
def validate_role (role : Option String) : String :=
  let r := match role with
    | none => "user"
    | some s => if s = "" then "user" else pyStrip (asciiLower s)
  if r ∈ VALID_ROLES then r else "user"

/-! ### database.py — tables and operations

The `users` and `sessions` tables become lists of records; timestamps are
integers; nullable columns are `Option`s.  Each database function is
translated row-for-row from its SQL statements. -/

/-- A row of the `users` table. -/
structure UserRow where
  id : Nat
  email : String
  name : Option String
  picture : Option String
  role : String
  created_at : Int
  last_login : Option Int
  totp_secret : Option String
  totp_enabled : Bool
  backup_codes : Option String
deriving DecidableEq

/-- A row of the `sessions` table. -/
structure SessionRow where
  session_id : String
  user_id : Nat
  created_at : Int
  expires_at : Int
  ip_address : Option String
  user_agent : Option String
  is_2fa_verified : Bool
deriving DecidableEq

/-- The database state read by the operations under study. -/
structure DB where
  users : List UserRow
  sessions : List SessionRow
deriving DecidableEq

/-- `SELECT COUNT(*) FROM users WHERE role = 'admin'`. -/
def adminCount (db : DB) : Nat :=
  (db.users.filter (fun u => u.role == "admin")).length

/-- `database.get_user_by_id(user_id)`. -/
def get_user_by_id (db : DB) (uid : Nat) : Option UserRow :=
  db.users.find? (fun u => u.id == uid)

/-- `database.delete_user(user_id)`: refuse when the target is an admin
and at most one admin exists; otherwise delete the user's sessions and the
user, returning `True`. -/
def delete_user (db : DB) (uid : Nat) : DB × Bool :=
  let admins := adminCount db
  let user := get_user_by_id db uid
  match user with
  | some u =>
    if u.role = "admin" ∧ admins ≤ 1 then (db, false)
    else
      ({ users := db.users.filter (fun v => v.id != uid),
         sessions := db.sessions.filter (fun s => s.user_id != uid) }, true)
  | none =>
      ({ users := db.users.filter (fun v => v.id != uid),
         sessions := db.sessions.filter (fun s => s.user_id != uid) }, true)

/-- `database.update_user_role(user_id, role)`: an unconditional
`UPDATE users SET role = ? WHERE id = ?` that always returns `True`. -/
def update_user_role (db : DB) (uid : Nat) (role : String) : DB × Bool :=
  ({ db with users := db.users.map (fun u => if u.id = uid then { u with role := role } else u) },
   true)

/-- `database.delete_user_sessions(user_id)`. -/
def delete_user_sessions (db : DB) (uid : Nat) : DB :=
  { db with sessions := db.sessions.filter (fun s => s.user_id != uid) }

/-- The row produced by the `get_session` join:
`SELECT s.*, u.email, u.name, u.role, u.picture, u.totp_enabled`. -/
structure SessionView where
  session_id : String
  user_id : Nat
  created_at : Int
  expires_at : Int
  ip_address : Option String
  user_agent : Option String
  is_2fa_verified : Bool
  email : String
  name : Option String
  role : String
  picture : Option String
  totp_enabled : Bool
deriving DecidableEq

/-- Assemble the join row of `get_session` from a session and its user. -/
def sessionView (s : SessionRow) (u : UserRow) : SessionView :=
  { session_id := s.session_id, user_id := s.user_id, created_at := s.created_at,
    expires_at := s.expires_at, ip_address := s.ip_address, user_agent := s.user_agent,
    is_2fa_verified := s.is_2fa_verified, email := u.email, name := u.name,
    role := u.role, picture := u.picture, totp_enabled := u.totp_enabled }

/-- `database.get_session(session_id)` at clock reading `now`: the row must
match the token and satisfy `expires_at > now`, and is joined with its
owning user. -/
def get_session (db : DB) (now : Int) (sid : String) : Option SessionView :=
  match db.sessions.find? (fun s => s.session_id == sid && decide (now < s.expires_at)) with
  | none => none
  | some s =>
    match db.users.find? (fun u => u.id == s.user_id) with
    | none => none
    | some u => some (sessionView s u)

/-- `database.create_session(...)`: insert a session row (the user agent
is truncated to 500 characters). -/
def create_session (db : DB) (row : SessionRow) : DB :=
  { db with sessions :=
      db.sessions ++ [{ row with user_agent := row.user_agent.map (fun ua => ⟨ua.data.take 500⟩) }] }

/-! ### audit.py — alert engine -/

/-- The security event types of `audit.EventType`. -/
inductive EventType where
  | LOGIN_SUCCESS | LOGIN_FAILED | LOGOUT
  | SESSION_CREATED | SESSION_EXPIRED | SESSION_INVALIDATED
  | USER_ADDED | USER_DELETED | ROLE_CHANGED
  | TOTP_ENABLED | TOTP_DISABLED | TOTP_VERIFIED | TOTP_FAILED | BACKUP_CODE_USED
  | RATE_LIMIT_EXCEEDED | SUSPICIOUS_ACTIVITY | UNAUTHORIZED_ACCESS
  | ADMIN_ACTION | CONFIG_CHANGED
deriving DecidableEq

/-- Membership in the `ALERT_EVENTS` set of always-alerting event types. -/
def isAlertEvent : EventType → Bool
  | .SUSPICIOUS_ACTIVITY => true
  | .UNAUTHORIZED_ACCESS => true
  | .USER_DELETED => true
  | .ROLE_CHANGED => true
  | .TOTP_DISABLED => true
  | _ => false

/-- `audit.ALERT_THRESHOLD_FAILED_LOGINS`. -/
def ALERT_THRESHOLD_FAILED_LOGINS : Nat := 5

/-- `audit.ALERT_THRESHOLD_RATE_LIMIT`. -/
def ALERT_THRESHOLD_RATE_LIMIT : Nat := 10

/-- The in-memory per-IP counters of `AuditLogger`, as total maps
defaulting to zero (the code only ever reads them with `.get(ip, 0)`). -/
structure AlertCounters where
  failedLogin : String → Nat
  rateLimit : String → Nat

/-- Point update of a counter map. -/
def bump (f : String → Nat) (k : String) (v : Nat) : String → Nat :=
  fun x => if x = k then v else f x

/-- `AuditLogger._check_alerts(event_type, email, ip_address, details)`:
returns the updated counters and whether `_send_alert` was invoked.
A direct alert event always alerts; a `LOGIN_FAILED` with a truthy IP
increments that IP's counter and, at the threshold, alerts and resets the
counter to zero; `RATE_LIMIT_EXCEEDED` does the same on its own counter. -/
def check_alerts (st : AlertCounters) (ev : EventType) (ip : Option String) :
    AlertCounters × Bool :=
  let direct := isAlertEvent ev
  if ev = EventType.LOGIN_FAILED ∧ pyTruthyOptStr ip = true then
    let a := ip.getD ""
    let n := st.failedLogin a + 1
    if ALERT_THRESHOLD_FAILED_LOGINS ≤ n then
      ({ st with failedLogin := bump st.failedLogin a 0 }, true)
    else
      ({ st with failedLogin := bump st.failedLogin a n }, direct)
  else if ev = EventType.RATE_LIMIT_EXCEEDED ∧ pyTruthyOptStr ip = true then
    let a := ip.getD ""
    let n := st.rateLimit a + 1
    if ALERT_THRESHOLD_RATE_LIMIT ≤ n then
      ({ st with rateLimit := bump st.rateLimit a 0 }, true)
    else
      ({ st with rateLimit := bump st.rateLimit a n }, direct)
  else (st, direct)

/-- Run a sequence of logged events through `_check_alerts`, collecting
the per-event alert-dispatch flags. -/
def run_events (st : AlertCounters) : List (EventType × Option String) →
    AlertCounters × List Bool
  | [] => (st, [])
  | (ev, ip) :: rest =>
    let step := check_alerts st ev ip
    let tail := run_events step.1 rest
    (tail.1, step.2 :: tail.2)

/-! ### main.py — orchestrator fragments -/

/-- `main.get_current_user(request)`: resolve the cookie, look the session
up with the read-time expiry check, and refuse a session whose user has
TOTP enabled but whose `is_2fa_verified` flag is still false. -/
def get_current_user (db : DB) (now : Int) (cookie : Option String) : Option SessionView :=
  match cookie with
  | none => none
  | some sid =>
    match get_session db now sid with
    | none => none
    | some s => if s.totp_enabled && !s.is_2fa_verified then none else some s

/-- The session row minted by `main.google_callback` for user `u`:
`is_2fa_verified = not db_user.get('totp_enabled', False)` and
`expires_at = now + SESSION_DURATION_HOURS hours`. -/
def callback_session (u : UserRow) (sid : String) (now : Int) (durationHours : Int)
    (ip ua : Option String) : SessionRow :=
  { session_id := sid, user_id := u.id, created_at := now,
    expires_at := now + durationHours * 3600, ip_address := ip, user_agent := ua,
    is_2fa_verified := !u.totp_enabled }

/-- `main.update_role` (the admin endpoint): validate the submitted role,
update it unconditionally, and revoke the target's sessions when the role
changed; the endpoint always answers with the success redirect (`true`). -/
def update_role_endpoint (db : DB) (uid : Nat) (role : String) : DB × Bool :=
  let newRole := validate_role (some role)
  let target := get_user_by_id db uid
  let oldRole := target.map (fun u => u.role)
  let db2 := (update_user_role db uid newRole).1
  if oldRole ≠ some newRole then (delete_user_sessions db2 uid, true)
  else (db2, true)

/-! ### Concrete fixtures used by closed theorems and witnesses -/

/-- A user record with the fields the claims read. -/
def mkUser (uid : Nat) (email role : String) (totp : Bool) : UserRow :=
  { id := uid, email := email, name := none, picture := none, role := role,
    created_at := 0, last_login := none, totp_secret := none,
    totp_enabled := totp, backup_codes := none }

/-- A session record with the fields the claims read. -/
def mkSession (sid : String) (uid : Nat) (expiry : Int) : SessionRow :=
  { session_id := sid, user_id := uid, created_at := 0, expires_at := expiry,
    ip_address := none, user_agent := none, is_2fa_verified := true }

/-- A state whose only user is its sole admin. -/
def lastAdminDB : DB :=
  { users := [mkUser 1 "root@example.com" "admin" false], sessions := [] }

/-- A state with two admins, each owning one session. -/
def twoAdminDB : DB :=
  { users := [mkUser 1 "root@example.com" "admin" false,
              mkUser 2 "other@example.com" "admin" false],
    sessions := [mkSession "tok1" 1 1000, mkSession "tok2" 2 1000] }

/-- A trivial concrete instantiation of the abstract TOTP digest. -/
def constDigits : String → Int → String := fun _ _ => "000000"

/-- A concrete user without TOTP. -/
def userNoTotp : UserRow := mkUser 1 "a@x.com" "user" false

/-- A concrete user with TOTP enabled. -/
def userWithTotp : UserRow := mkUser 2 "b@x.com" "user" true

/-- The session freshly minted by the callback for `userNoTotp`. -/
def freshNoTotpSession : SessionRow := callback_session userNoTotp "tok" 0 24 none none

/-- The session freshly minted by the callback for `userWithTotp`. -/
def freshTotpSession : SessionRow := callback_session userWithTotp "tok2" 0 24 none none

/-- A concrete TOTP digest that distinguishes the time steps 8..12. -/
def sampleDigits : String → Int → String := fun _ i =>
  if i = 8 then "111111"
  else if i = 9 then "222222"
  else if i = 10 then "333333"
  else if i = 11 then "444444"
  else if i = 12 then "555555"
  else "000000"

/-- A concrete instance of the Unicode digit predicate, agreeing with
Unicode on the characters the concrete evaluations use: the ASCII digits,
the fullwidth digits U+FF10–U+FF19 and the Arabic-Indic digits
U+0660–U+0669 are all `str.isdigit` digits. -/
def uIsDigitSample (c : Char) : Bool :=
  c.isDigit || decide (0xFF10 ≤ c.toNat ∧ c.toNat ≤ 0xFF19)
    || decide (0x660 ≤ c.toNat ∧ c.toNat ≤ 0x669)

/-- A concrete instance of the NFKC normaliser, agreeing with Unicode on
the strings the concrete evaluations use: each fullwidth digit
compatibility-decomposes to its ASCII digit, while ASCII and Arabic-Indic
digits are NFKC-fixed. -/
def nfkcSample (s : String) : String :=
  ⟨s.data.map (fun c =>
    if 0xFF10 ≤ c.toNat ∧ c.toNat ≤ 0xFF19 then Char.ofNat (c.toNat - 0xFF10 + 48) else c)⟩

end AuthService

namespace AuthService

/-! ## Theorems -/

/-- C1: the at-least-one-admin invariant, evaluated at the failing state.
`delete_user` does refuse to delete the sole admin (and deleting a
non-last admin also deletes that user's sessions), but `update_user_role`
— including the admin endpoint built on it — performs no admin-count
check: downgrading the sole remaining admin returns `True` and leaves the
users table with zero admins. -/
theorem last_admin_downgrade_unchecked :
    adminCount lastAdminDB = 1
  ∧ delete_user lastAdminDB 1 = (lastAdminDB, false)
  ∧ update_user_role lastAdminDB 1 "user"
      = ({ users := [mkUser 1 "root@example.com" "user" false], sessions := [] }, true)
  ∧ adminCount (update_user_role lastAdminDB 1 "user").1 = 0
  ∧ (update_role_endpoint lastAdminDB 1 "user").2 = true
  ∧ adminCount (update_role_endpoint lastAdminDB 1 "user").1 = 0
  ∧ delete_user twoAdminDB 2
      = ({ users := [mkUser 1 "root@example.com" "admin" false],
           sessions := [mkSession "tok1" 1 1000] }, true) := by
  decide

/-- C4 counterexample: with a secret that is not valid Base32 (here `"1"`)
and a code that passes the digit/length gate, `verify_totp` propagates the
`binascii.Error` raised by the Base32 decoder inside `pyotp` (modelled as
`none`) instead of returning `False`. -/
theorem totp_nonbase32_secret_raises :
    verify_totp uIsDigitSample nfkcSample constDigits "1" "123456" 1000 = none := by
  decide

/-- C3 counterexample: the fullwidth-digit rendition of the current
window code is not six ASCII digits, yet `verify_totp` accepts it: it
passes Python's Unicode `isdigit` gate and `strings_equal`'s NFKC
normalisation maps it onto the ASCII window code. -/
theorem totp_fullwidth_code_accepted :
    ("３３３３３３".data.all Char.isDigit = false)
  ∧ "３３３３３３".length = 6
  ∧ sampleDigits "AAAA" 10 = "333333"
  ∧ verify_totp uIsDigitSample nfkcSample sampleDigits "AAAA" "３３３３３３" 10 = some true := by
  decide

/-- C8 counterexample: a redirect target that contains a backslash but is
an absolute URL on an allow-listed host is returned unchanged, not
rewritten to the default. -/
theorem redirect_backslash_not_rewritten :
    ('\\' ∈ "https://keonycs.com/a\\b".data)
  ∧ validate_redirect_url "https://keonycs.com/a\\b" "/tools/" = "https://keonycs.com/a\\b" := by
  decide

/-! ### TOTP helper lemmas -/

theorem generate_otp_pos (digits : String → Int → String) (secret : String) (i : Int)
    (hok : pyotp_byte_secret_ok secret = true) (hi : 0 ≤ i) :
    generate_otp digits secret i = some (digits secret i) := by
  unfold generate_otp
  rw [if_neg (by omega), if_pos hok]

/-- With a decodable secret and a positive time step, `TOTP.verify` with
`valid_window=1` is exactly `strings_equal` membership in the three-code
window. -/
theorem totp_verify_eval (nfkc : String → String) (digits : String → Int → String)
    (secret code : String) (t : Int)
    (hok : pyotp_byte_secret_ok secret = true) (ht : 1 ≤ t) :
    totp_verify nfkc digits secret code t =
      some (strings_equal nfkc code (digits secret (t - 1))
        || strings_equal nfkc code (digits secret t)
        || strings_equal nfkc code (digits secret (t + 1))) := by
  unfold totp_verify
  rw [generate_otp_pos digits secret (t - 1) hok (by omega),
    generate_otp_pos digits secret t hok (by omega),
    generate_otp_pos digits secret (t + 1) hok (by omega)]
  by_cases h1 : strings_equal nfkc code (digits secret (t - 1)) = true <;>
    by_cases h2 : strings_equal nfkc code (digits secret t) = true <;>
    by_cases h3 : strings_equal nfkc code (digits secret (t + 1)) = true <;>
    simp [h1, h2, h3]

/-- `TOTP.verify` on an undecodable secret raises (whatever the code). -/
theorem totp_verify_bad_secret (nfkc : String → String) (digits : String → Int → String)
    (secret code : String) (t : Int) (hbad : pyotp_byte_secret_ok secret = false) :
    totp_verify nfkc digits secret code t = none := by
  have hgen : generate_otp digits secret (t - 1) = none := by
    unfold generate_otp
    by_cases hneg : t - 1 < 0
    · rw [if_pos hneg]
    · rw [if_neg hneg, if_neg (by simp [hbad])]
  unfold totp_verify
  rw [hgen]

theorem stripSpacesHyphens_of_digits (s : String) (h : s.data.all Char.isDigit = true) :
    stripSpacesHyphens s = s := by
  unfold stripSpacesHyphens removeChar
  have hall : ∀ c ∈ s.data, c.isDigit = true := by
    intro c hc
    exact List.all_eq_true.mp h c hc
  have h1 : s.data.filter (fun c => c != ' ') = s.data := by
    apply List.filter_eq_self.mpr
    intro c hc
    have hd := hall c hc
    simp only [bne_iff_ne, ne_eq]
    intro he
    rw [he] at hd
    exact absurd hd (by decide)
  rw [show ((⟨s.data.filter (fun c => c != ' ')⟩ : String).data)
        = s.data.filter (fun c => c != ' ') from rfl, h1]
  have h2 : s.data.filter (fun c => c != '-') = s.data := by
    apply List.filter_eq_self.mpr
    intro c hc
    have hd := hall c hc
    simp only [bne_iff_ne, ne_eq]
    intro he
    rw [he] at hd
    exact absurd hd (by decide)
  rw [h2]

theorem isSixAsciiDigitString_parts (s : String) (h : isSixAsciiDigitString s = true) :
    s.data.all Char.isDigit = true ∧ s ≠ "" := by
  unfold isSixAsciiDigitString at h
  simp only [Bool.and_eq_true, beq_iff_eq] at h
  refine ⟨h.1, ?_⟩
  intro he
  rw [he] at h
  exact absurd h.2 (by decide)

/-- An all-ASCII-digit six-character string passes the program's Unicode
gate, because every ASCII digit is a Unicode digit. -/
theorem pySixDigits_of_ascii (uIsDigit : Char → Bool)
    (hascii : ∀ c : Char, c.isDigit = true → uIsDigit c = true)
    (s : String) (h : isSixAsciiDigitString s = true) : pySixDigits uIsDigit s = true := by
  unfold isSixAsciiDigitString at h
  unfold pySixDigits pyIsDigitStr
  simp only [Bool.and_eq_true, beq_iff_eq, List.all_eq_true, decide_eq_true_eq] at h ⊢
  obtain ⟨h1, h2⟩ := h
  refine ⟨⟨fun c hc => hascii c (h1 c hc), ?_⟩, h2⟩
  intro he
  rw [he] at h2
  exact absurd h2 (by decide)

theorem pySixDigits_empty (uIsDigit : Char → Bool) : pySixDigits uIsDigit "" = false := by
  simp [pySixDigits, pyIsDigitStr]

theorem verify_totp_malformed (uIsDigit : Char → Bool) (nfkc : String → String)
    (digits : String → Int → String) (secret code : String) (t : Int)
    (hmal : pySixDigits uIsDigit (stripSpacesHyphens code) = false) :
    verify_totp uIsDigit nfkc digits secret code t = some false := by
  unfold verify_totp
  by_cases h0 : secret = "" ∨ code = ""
  · rw [if_pos h0]
  · rw [if_neg h0, if_neg (by simp [hmal])]

theorem gate_implies_nonempty (uIsDigit : Char → Bool) (code : String)
    (hgate : pySixDigits uIsDigit (stripSpacesHyphens code) = true) : code ≠ "" := by
  intro he
  rw [he, show stripSpacesHyphens "" = "" from rfl, pySixDigits_empty uIsDigit] at hgate
  exact absurd hgate (by decide)

/-- C4 (amended): `verify_totp` fails closed — it returns `False` without
raising — for a falsy secret, a falsy code, or any code whose stripped
form fails Python's Unicode `isdigit`/length-6 gate; it returns a boolean
(does not raise) whenever the secret is Base32-decodable and the time
step is at least 1; but a nonempty secret that Base32 decoding rejects,
combined with any gate-passing code (six Unicode digits, not necessarily
ASCII), raises from the decoder.  (The unamended claim fails on that last
case, see the counterexample.) -/
theorem verify_totp_fail_closed (uIsDigit : Char → Bool) (nfkc : String → String)
    (digits : String → Int → String) :
    (∀ code t, verify_totp uIsDigit nfkc digits "" code t = some false)
  ∧ (∀ secret t, verify_totp uIsDigit nfkc digits secret "" t = some false)
  ∧ (∀ secret code t, pySixDigits uIsDigit (stripSpacesHyphens code) = false →
      verify_totp uIsDigit nfkc digits secret code t = some false)
  ∧ (∀ secret code t, pyotp_byte_secret_ok secret = true → 1 ≤ t →
      (verify_totp uIsDigit nfkc digits secret code t).isSome = true)
  ∧ (∀ secret code t, secret ≠ "" → pyotp_byte_secret_ok secret = false →
      pySixDigits uIsDigit (stripSpacesHyphens code) = true →
      verify_totp uIsDigit nfkc digits secret code t = none) := by
  refine ⟨?_, ?_, ?_, ?_, ?_⟩
  · intro code t
    unfold verify_totp
    rw [if_pos (Or.inl rfl)]
  · intro secret t
    unfold verify_totp
    rw [if_pos (Or.inr rfl)]
  · intro secret code t hmal
    exact verify_totp_malformed uIsDigit nfkc digits secret code t hmal
  · intro secret code t hok ht
    unfold verify_totp
    by_cases h0 : secret = "" ∨ code = ""
    · rw [if_pos h0]
      rfl
    · rw [if_neg h0]
      by_cases h1 : pySixDigits uIsDigit (stripSpacesHyphens code) = true
      · rw [if_pos h1, totp_verify_eval nfkc digits secret _ t hok ht]
        rfl
      · rw [if_neg h1]
        rfl
  · intro secret code t hsec hbad hgate
    have hcne := gate_implies_nonempty uIsDigit code hgate
    unfold verify_totp
    rw [if_neg (by
      rintro (h | h)
      · exact hsec h
      · exact hcne h), if_pos hgate]
    exact totp_verify_bad_secret nfkc digits secret _ t hbad

/-- C4 witness: the fail-closed and raising cases evaluated at concrete
inputs, among them the Arabic-Indic six-digit code that passes the
Unicode gate and reaches the raising decoder. -/
theorem verify_totp_fail_closed_check :
    verify_totp uIsDigitSample nfkcSample constDigits "" "123456" 5 = some false
  ∧ verify_totp uIsDigitSample nfkcSample constDigits "AAAA" "" 5 = some false
  ∧ verify_totp uIsDigitSample nfkcSample constDigits "AAAA" "12-34" 5 = some false
  ∧ (verify_totp uIsDigitSample nfkcSample constDigits "AAAA" "999999" 5).isSome = true
  ∧ verify_totp uIsDigitSample nfkcSample constDigits "1" "١٢٣٤٥٦" 5 = none :=
  ⟨(verify_totp_fail_closed uIsDigitSample nfkcSample constDigits).1 "123456" 5,
   (verify_totp_fail_closed uIsDigitSample nfkcSample constDigits).2.1 "AAAA" 5,
   (verify_totp_fail_closed uIsDigitSample nfkcSample constDigits).2.2.1 "AAAA" "12-34" 5
     (by decide),
   (verify_totp_fail_closed uIsDigitSample nfkcSample constDigits).2.2.2.1 "AAAA" "999999" 5
     (by decide) (by decide),
   (verify_totp_fail_closed uIsDigitSample nfkcSample constDigits).2.2.2.2 "1" "١٢٣٤٥٦" 5
     (by decide) (by decide) (by decide)⟩

/-- C3 (amended): `verify_totp` strips spaces and hyphens and returns
`False` for anything that then fails Python's Unicode `isdigit`/length-6
gate — not only non-ASCII-digit strings; for a gate-passing code against
a decodable secret it accepts exactly the submissions whose NFKC
normalisation equals the code of step `t-1`, `t` or `t+1` (with the
per-step codes abstracted by `digits`, assumed six ASCII digits, and the
Unicode parameters constrained only by facts of Unicode): in particular
the ASCII codes of steps `t-1`, `t`, `t+1` are accepted, those of `t-2`
and `t+2` rejected when distinct, while NFKC-equivalent non-ASCII (e.g.
fullwidth) renditions of in-window codes are also accepted, falsifying
the original "exactly 6 ASCII digits" clause (see the counterexample). -/
theorem totp_window_tolerance (uIsDigit : Char → Bool) (nfkc : String → String)
    (digits : String → Int → String) (secret : String) (t : Int)
    (hsec : secret ≠ "") (hok : pyotp_byte_secret_ok secret = true) (ht : 1 ≤ t)
    (hdig : ∀ i : Int, isSixAsciiDigitString (digits secret i) = true)
    (hascii : ∀ c : Char, c.isDigit = true → uIsDigit c = true)
    (hnfkc : ∀ s : String, s.data.all Char.isDigit = true → nfkc s = s) :
    (∀ code : String, pySixDigits uIsDigit (stripSpacesHyphens code) = false →
        verify_totp uIsDigit nfkc digits secret code t = some false)
  ∧ (∀ code : String, pySixDigits uIsDigit (stripSpacesHyphens code) = true →
        verify_totp uIsDigit nfkc digits secret code t =
          some (nfkc (stripSpacesHyphens code) == digits secret (t - 1)
            || nfkc (stripSpacesHyphens code) == digits secret t
            || nfkc (stripSpacesHyphens code) == digits secret (t + 1)))
  ∧ (∀ i : Int, -1 ≤ i → i ≤ 1 →
        verify_totp uIsDigit nfkc digits secret (digits secret (t + i)) t = some true)
  ∧ (digits secret (t - 2) ≠ digits secret (t - 1) →
     digits secret (t - 2) ≠ digits secret t →
     digits secret (t - 2) ≠ digits secret (t + 1) →
        verify_totp uIsDigit nfkc digits secret (digits secret (t - 2)) t = some false)
  ∧ (digits secret (t + 2) ≠ digits secret (t - 1) →
     digits secret (t + 2) ≠ digits secret t →
     digits secret (t + 2) ≠ digits secret (t + 1) →
        verify_totp uIsDigit nfkc digits secret (digits secret (t + 2)) t = some false) := by
  have hchar : ∀ code : String, pySixDigits uIsDigit (stripSpacesHyphens code) = true →
      verify_totp uIsDigit nfkc digits secret code t =
        some (nfkc (stripSpacesHyphens code) == digits secret (t - 1)
          || nfkc (stripSpacesHyphens code) == digits secret t
          || nfkc (stripSpacesHyphens code) == digits secret (t + 1)) := by
    intro code hgate
    have hcne := gate_implies_nonempty uIsDigit code hgate
    unfold verify_totp
    rw [if_neg (by
      rintro (h | h)
      · exact hsec h
      · exact hcne h), if_pos hgate, totp_verify_eval nfkc digits secret _ t hok ht]
    unfold strings_equal
    rw [hnfkc _ (isSixAsciiDigitString_parts _ (hdig (t - 1))).1,
      hnfkc _ (isSixAsciiDigitString_parts _ (hdig t)).1,
      hnfkc _ (isSixAsciiDigitString_parts _ (hdig (t + 1))).1]
  have hstep : ∀ j : Int, verify_totp uIsDigit nfkc digits secret (digits secret j) t =
      some ((digits secret j == digits secret (t - 1))
        || (digits secret j == digits secret t)
        || (digits secret j == digits secret (t + 1))) := by
    intro j
    have hparts := isSixAsciiDigitString_parts _ (hdig j)
    have hstrip := stripSpacesHyphens_of_digits _ hparts.1
    rw [hchar _ (by rw [hstrip]; exact pySixDigits_of_ascii uIsDigit hascii _ (hdig j)),
      hstrip, hnfkc _ hparts.1]
  refine ⟨?_, hchar, ?_, ?_, ?_⟩
  · intro code hmal
    exact verify_totp_malformed uIsDigit nfkc digits secret code t hmal
  · intro i hi1 hi2
    rw [hstep (t + i)]
    have : i = -1 ∨ i = 0 ∨ i = 1 := by omega
    rcases this with h | h | h <;> subst h
    · rw [show t + (-1 : Int) = t - 1 by ring]
      simp
    · rw [show t + (0 : Int) = t by ring]
      simp
    · simp
  · intro h1 h2 h3
    rw [hstep (t - 2)]
    simp [h1, h2, h3]
  · intro h1 h2 h3
    rw [hstep (t + 2)]
    simp [h1, h2, h3]

/-! ### Unicode-fragment facts for the concrete instances -/

theorem list_map_id_of {α : Type} (f : α → α) (l : List α) (h : ∀ x ∈ l, f x = x) :
    l.map f = l := by
  induction l with
  | nil => rfl
  | cons a t ih =>
    rw [List.map_cons, h a (List.mem_cons_self a t),
      ih (fun x hx => h x (List.mem_cons_of_mem a hx))]

theorem ascii_digit_toNat_le (c : Char) (h : c.isDigit = true) : c.toNat ≤ 57 := by
  simp only [Char.isDigit, Bool.and_eq_true, decide_eq_true_eq] at h
  have h2 := h.2
  rw [UInt32.le_def] at h2
  have h3 : c.val.toBitVec.toNat ≤ (57 : UInt32).toBitVec.toNat := BitVec.le_def.mp h2
  simpa [Char.toNat] using h3

/-- The concrete NFKC instance fixes ASCII digit strings, as Unicode NFKC
does. -/
theorem nfkcSample_fixes_ascii (s : String) (h : s.data.all Char.isDigit = true) :
    nfkcSample s = s := by
  unfold nfkcSample
  rw [list_map_id_of _ s.data (by
    intro c hc
    have hd := List.all_eq_true.mp h c hc
    have hle := ascii_digit_toNat_le c hd
    rw [if_neg (by omega)])]

/-- The concrete digit-predicate instance accepts ASCII digits, as
Python's `str.isdigit` does. -/
theorem uIsDigitSample_of_ascii (c : Char) (h : c.isDigit = true) :
    uIsDigitSample c = true := by
  simp [uIsDigitSample, h]

/-- C3 witness: the window behaviour at time step 10 with the concrete
Unicode fragment, digest and secret `"AAAA"`: a malformed code fails, the
ASCII codes of steps 9, 10 and 11 pass, the codes of steps 8 and 12 fail,
and the fullwidth rendition of the step-10 code passes. -/
theorem totp_window_tolerance_check :
    verify_totp uIsDigitSample nfkcSample sampleDigits "AAAA" "12 34-5" 10 = some false
  ∧ verify_totp uIsDigitSample nfkcSample sampleDigits "AAAA" "222222" 10 = some true
  ∧ verify_totp uIsDigitSample nfkcSample sampleDigits "AAAA" "333333" 10 = some true
  ∧ verify_totp uIsDigitSample nfkcSample sampleDigits "AAAA" "444444" 10 = some true
  ∧ verify_totp uIsDigitSample nfkcSample sampleDigits "AAAA" "111111" 10 = some false
  ∧ verify_totp uIsDigitSample nfkcSample sampleDigits "AAAA" "555555" 10 = some false
  ∧ verify_totp uIsDigitSample nfkcSample sampleDigits "AAAA" "３３３３３３" 10 = some true := by
  have hdig : ∀ i : Int, isSixAsciiDigitString (sampleDigits "AAAA" i) = true := by
    intro i
    unfold sampleDigits
    split
    · decide
    · split
      · decide
      · split
        · decide
        · split
          · decide
          · split
            · decide
            · decide
  have h := totp_window_tolerance uIsDigitSample nfkcSample sampleDigits "AAAA" 10
    (by decide) (by decide) (by decide) hdig uIsDigitSample_of_ascii nfkcSample_fixes_ascii
  refine ⟨h.1 "12 34-5" (by decide), ?_, ?_, ?_, ?_, ?_, ?_⟩
  · have := h.2.2.1 (-1) (by decide) (by decide)
    rw [show sampleDigits "AAAA" (10 + (-1 : Int)) = "222222" from by decide] at this
    exact this
  · have := h.2.2.1 0 (by decide) (by decide)
    rw [show sampleDigits "AAAA" ((10 : Int) + 0) = "333333" from by decide] at this
    exact this
  · have := h.2.2.1 1 (by decide) (by decide)
    rw [show sampleDigits "AAAA" ((10 : Int) + 1) = "444444" from by decide] at this
    exact this
  · have := h.2.2.2.1 (by decide) (by decide) (by decide)
    rw [show sampleDigits "AAAA" ((10 : Int) - 2) = "111111" from by decide] at this
    exact this
  · have := h.2.2.2.2 (by decide) (by decide) (by decide)
    rw [show sampleDigits "AAAA" ((10 : Int) + 2) = "555555" from by decide] at this
    exact this
  · have := h.2.1 "３３３３３３" (by decide)
    rw [this]
    decide

/-! ### Comma split/join helper lemmas -/

theorem splitCommaL_ne_nil (l : List Char) : splitCommaL l ≠ [] := by
  cases l with
  | nil => simp [splitCommaL]
  | cons c rest =>
    by_cases hc : c = ',' <;> simp [splitCommaL, hc]

theorem splitCommaL_no_comma (l : List Char) : ∀ x ∈ splitCommaL l, ',' ∉ x := by
  induction l with
  | nil =>
    intro x hx
    simp [splitCommaL] at hx
    simp [hx]
  | cons c rest ih =>
    intro x hx
    unfold splitCommaL at hx
    cases h : splitCommaL rest with
    | nil => exact absurd h (splitCommaL_ne_nil rest)
    | cons a t =>
      rw [h] at hx
      by_cases hc : c = ','
      · rw [if_pos hc] at hx
        rcases List.mem_cons.mp hx with h2 | h2
        · simp [h2]
        · exact ih x (h ▸ h2)
      · rw [if_neg hc] at hx
        simp only [List.headI, List.tail] at hx
        rcases List.mem_cons.mp hx with h2 | h2
        · subst h2
          intro hmem
          rcases List.mem_cons.mp hmem with h3 | h3
          · exact hc h3.symm
          · exact ih a (h ▸ List.mem_cons_self a t) h3
        · exact ih x (h ▸ List.mem_cons_of_mem a h2)

theorem splitCommaL_single (l : List Char) (h : ',' ∉ l) : splitCommaL l = [l] := by
  induction l with
  | nil => rfl
  | cons c rest ih =>
    have hc : ¬ c = ',' := fun he => h (he ▸ List.mem_cons_self c rest)
    have hrest : ',' ∉ rest := fun hm => h (List.mem_cons_of_mem c hm)
    simp only [splitCommaL]
    rw [ih hrest]
    simp [hc]

theorem splitCommaL_append (x m : List Char) (hx : ',' ∉ x) :
    splitCommaL (x ++ ',' :: m) = x :: splitCommaL m := by
  induction x with
  | nil => simp [splitCommaL]
  | cons c rest ih =>
    have hc : ¬ c = ',' := fun he => hx (he ▸ List.mem_cons_self c rest)
    have hrest : ',' ∉ rest := fun hm => hx (List.mem_cons_of_mem c hm)
    show splitCommaL (c :: (rest ++ ',' :: m)) = (c :: rest) :: splitCommaL m
    simp only [splitCommaL]
    rw [ih hrest]
    simp [hc]

theorem splitCommaL_joinCommaL (L : List (List Char)) (hL : L ≠ [])
    (h : ∀ x ∈ L, ',' ∉ x) : splitCommaL (joinCommaL L) = L := by
  induction L with
  | nil => exact absurd rfl hL
  | cons x rest ih =>
    cases rest with
    | nil =>
      show splitCommaL (joinCommaL [x]) = [x]
      unfold joinCommaL
      exact splitCommaL_single x (h x (List.mem_cons_self x []))
    | cons y t =>
      show splitCommaL (joinCommaL (x :: y :: t)) = x :: y :: t
      unfold joinCommaL
      rw [splitCommaL_append x _ (h x (List.mem_cons_self x (y :: t)))]
      rw [ih (by simp) (fun z hz => h z (List.mem_cons_of_mem x hz))]

theorem string_ne_empty_iff (s : String) : s ≠ "" ↔ s.data ≠ [] := by
  constructor
  · intro h hd
    apply h
    cases s
    simp only [String.ext_iff]
    exact hd
  · intro h he
    apply h
    rw [he]

theorem splitComma_no_comma (s : String) : ∀ x ∈ splitComma s, ',' ∉ x.data := by
  intro x hx
  unfold splitComma at hx
  rcases List.mem_map.mp hx with ⟨l, hl, he⟩
  have := splitCommaL_no_comma s.data l hl
  rw [← he]
  exact this

theorem splitComma_joinComma (L : List String) (hL : L ≠ [])
    (h : ∀ x ∈ L, ',' ∉ x.data) : splitComma (joinComma L) = L := by
  unfold splitComma joinComma
  rw [show ((⟨joinCommaL (L.map String.data)⟩ : String).data) = joinCommaL (L.map String.data)
      from rfl]
  rw [splitCommaL_joinCommaL (L.map String.data) (by simpa using hL)
    (by
      intro x hx
      rcases List.mem_map.mp hx with ⟨z, hz, he⟩
      rw [← he]
      exact h z hz)]
  rw [List.map_map]
  have : (fun l => (⟨l⟩ : String)) ∘ String.data = id := by
    funext z
    rfl
  rw [this, List.map_id]

theorem joinComma_ne_empty (L : List String) (hL : L ≠ []) (hh : ∀ x ∈ L, x ≠ "") :
    joinComma L ≠ "" := by
  rw [string_ne_empty_iff]
  unfold joinComma
  rw [show ((⟨joinCommaL (L.map String.data)⟩ : String).data) = joinCommaL (L.map String.data)
      from rfl]
  cases L with
  | nil => exact absurd rfl hL
  | cons x rest =>
    cases rest with
    | nil =>
      show joinCommaL [x.data] ≠ []
      unfold joinCommaL
      exact (string_ne_empty_iff x).mp (hh x (List.mem_cons_self x []))
    | cons y t =>
      show joinCommaL (x.data :: y.data :: (t.map String.data)) ≠ []
      unfold joinCommaL
      intro he
      have := (string_ne_empty_iff x).mp (hh x (List.mem_cons_self x (y :: t)))
      rcases List.append_eq_nil.mp he with ⟨h1, _⟩
      exact this h1

/-- Evaluation of `verify_backup_code` on a truthy stored string and a
truthy submitted code. -/
theorem verify_backup_code_eval (S c : String) (hS : S ≠ "") (hc : c ≠ "") :
    verify_backup_code (some S) c =
      (if normalize_backup_code c ∈ splitComma S then
        (true, if (splitComma S).erase (normalize_backup_code c) = [] then none
               else some (joinComma ((splitComma S).erase (normalize_backup_code c))))
       else (false, some S)) := by
  unfold verify_backup_code
  rw [if_neg (by
    rintro (h | h)
    · simp [pyTruthyOptStr, hS] at h
    · exact hc h)]
  rfl

/-- C5: when the normalised submitted code is a member of the stored
(well-formed: nonempty, duplicate-free, without empty entries) set, the
verification succeeds, the representation loses exactly that one code, the
remaining-code count drops by exactly one, and resubmitting the same code
against the updated representation fails and leaves it unchanged; a
non-member code fails and leaves the representation unchanged. -/
theorem backup_code_single_use (S c : String) (hS : S ≠ "") (hc : c ≠ "")
    (hnd : (splitComma S).Nodup) (hne : "" ∉ splitComma S) :
    (normalize_backup_code c ∈ splitComma S →
        (verify_backup_code (some S) c).1 = true
      ∧ get_backup_codes_count (verify_backup_code (some S) c).2 + 1
          = get_backup_codes_count (some S)
      ∧ (∀ S2, (verify_backup_code (some S) c).2 = some S2 →
            splitComma S2 = (splitComma S).erase (normalize_backup_code c))
      ∧ verify_backup_code (verify_backup_code (some S) c).2 c
          = (false, (verify_backup_code (some S) c).2))
  ∧ (normalize_backup_code c ∉ splitComma S →
        verify_backup_code (some S) c = (false, some S)) := by
  have heval := verify_backup_code_eval S c hS hc
  have hcountS : get_backup_codes_count (some S) = (splitComma S).length := by
    unfold get_backup_codes_count
    rw [if_neg (by simp [pyTruthyOptStr, hS])]
    rfl
  constructor
  · intro hmem
    have hperm := List.perm_cons_erase hmem
    have hlen := hperm.length_eq
    rw [heval, if_pos hmem]
    by_cases hE : (splitComma S).erase (normalize_backup_code c) = []
    · rw [if_pos hE]
      refine ⟨rfl, ?_, ?_, ?_⟩
      · rw [hcountS, hlen, hE]
        rfl
      · intro S2 h2
        exact absurd h2 (by simp)
      · rfl
    · rw [if_neg hE]
      have hnc : ∀ x ∈ (splitComma S).erase (normalize_backup_code c), ',' ∉ x.data :=
        fun x hx => splitComma_no_comma S x (List.mem_of_mem_erase hx)
      have hnee : ∀ x ∈ (splitComma S).erase (normalize_backup_code c), x ≠ "" :=
        fun x hx he => hne (he ▸ List.mem_of_mem_erase hx)
      have hjne : joinComma ((splitComma S).erase (normalize_backup_code c)) ≠ "" :=
        joinComma_ne_empty _ hE hnee
      have hsplit : splitComma (joinComma ((splitComma S).erase (normalize_backup_code c)))
          = (splitComma S).erase (normalize_backup_code c) :=
        splitComma_joinComma _ hE hnc
      refine ⟨rfl, ?_, ?_, ?_⟩
      · show get_backup_codes_count
            (some (joinComma ((splitComma S).erase (normalize_backup_code c)))) + 1
          = get_backup_codes_count (some S)
        unfold get_backup_codes_count
        rw [if_neg (by simp [pyTruthyOptStr, hjne]),
          if_neg (by simp [pyTruthyOptStr, hS])]
        show (splitComma (joinComma ((splitComma S).erase (normalize_backup_code c)))).length + 1
          = (splitComma S).length
        rw [hsplit, hlen]
        rfl
      · intro S2 h2
        have : S2 = joinComma ((splitComma S).erase (normalize_backup_code c)) := by
          exact (Option.some.injEq _ _ ▸ h2 : _) |>.symm
        rw [this]
        exact hsplit
      · show verify_backup_code
            (some (joinComma ((splitComma S).erase (normalize_backup_code c)))) c
          = (false, some (joinComma ((splitComma S).erase (normalize_backup_code c))))
        rw [verify_backup_code_eval _ c hjne hc, hsplit,
          if_neg (by
            intro habs
            exact absurd ((hnd.mem_erase_iff).mp habs).1 (by simp))]
  · intro hmem
    rw [heval, if_neg hmem]

/-- C5 witness: a two-code representation at a concrete code: the first
submission (in lower case with a space instead of a hyphen) consumes the
code, the count drops from 2 to 1, and resubmitting fails. -/
theorem backup_code_single_use_check :
    (verify_backup_code (some "AAAA-BBBB,CCCC-DDDD") "aaaa bbbb").1 = true
  ∧ get_backup_codes_count (verify_backup_code (some "AAAA-BBBB,CCCC-DDDD") "aaaa bbbb").2 + 1
      = get_backup_codes_count (some "AAAA-BBBB,CCCC-DDDD")
  ∧ verify_backup_code (verify_backup_code (some "AAAA-BBBB,CCCC-DDDD") "aaaa bbbb").2 "aaaa bbbb"
      = (false, (verify_backup_code (some "AAAA-BBBB,CCCC-DDDD") "aaaa bbbb").2)
  ∧ verify_backup_code (some "AAAA-BBBB,CCCC-DDDD") "EEEE-FFFF"
      = (false, some "AAAA-BBBB,CCCC-DDDD") := by
  have h := backup_code_single_use "AAAA-BBBB,CCCC-DDDD" "aaaa bbbb" (by decide) (by decide)
    (by decide) (by decide)
  have hmem : normalize_backup_code "aaaa bbbb" ∈ splitComma "AAAA-BBBB,CCCC-DDDD" := by decide
  have h2 := backup_code_single_use "AAAA-BBBB,CCCC-DDDD" "EEEE-FFFF" (by decide) (by decide)
    (by decide) (by decide)
  exact ⟨(h.1 hmem).1, (h.1 hmem).2.1, (h.1 hmem).2.2.2, h2.2 (by decide)⟩

/-- C9: consuming the last remaining backup code yields `(True, None)`
(the representation becomes `None`, not an empty string), and the
remaining-count reader returns 0 on both `None` and the empty string
without failing. -/
theorem last_backup_code_returns_none (S c : String) (hc : c ≠ "")
    (hcount : get_backup_codes_count (some S) = 1)
    (hmem : normalize_backup_code c ∈ splitComma S) :
    verify_backup_code (some S) c = (true, none)
  ∧ get_backup_codes_count none = 0
  ∧ get_backup_codes_count (some "") = 0 := by
  refine ⟨?_, by decide, by decide⟩
  have hS : S ≠ "" := by
    intro he
    subst he
    simp [get_backup_codes_count, pyTruthyOptStr] at hcount
  have hlen : (splitComma S).length = 1 := by
    unfold get_backup_codes_count at hcount
    rw [if_neg (by simp [pyTruthyOptStr, hS])] at hcount
    exact hcount
  obtain ⟨x, hx⟩ := List.length_eq_one.mp hlen
  rw [verify_backup_code_eval S c hS hc, if_pos hmem, hx]
  rw [hx] at hmem
  have hcn : normalize_backup_code c = x := by simpa using hmem
  rw [hcn]
  simp

/-- C9 witness: a single-code representation consumed at a concrete
code returns `(True, None)`. -/
theorem last_backup_code_returns_none_check :
    verify_backup_code (some "AAAA-BBBB") "AAAA-BBBB" = (true, none)
  ∧ get_backup_codes_count none = 0
  ∧ get_backup_codes_count (some "") = 0 :=
  last_backup_code_returns_none "AAAA-BBBB" "AAAA-BBBB" (by decide) (by decide) (by decide)

/-! ### Session lookup lemmas -/

theorem find?_unique {α : Type} (p : α → Bool) (l : List α) (a : α) (ha : a ∈ l)
    (hpa : p a = true) (huniq : ∀ b ∈ l, p b = true → b = a) : l.find? p = some a := by
  induction l with
  | nil => exact absurd ha (List.not_mem_nil a)
  | cons b t ih =>
    by_cases hb : p b = true
    · rw [List.find?_cons_of_pos t hb]
      rw [huniq b (List.mem_cons_self b t) hb]
    · rw [List.find?_cons_of_neg t (by simpa using hb)]
      have hat : a ∈ t := by
        rcases List.mem_cons.mp ha with h | h
        · exact absurd (h ▸ hpa) hb
        · exact h
      exact ih hat (fun x hx hp => huniq x (List.mem_cons_of_mem b hx) hp)

/-- C6: `get_session` enforces expiry at read time — a token all of whose
rows are expired (`expires_at ≤ now`) yields `None`, exactly as a token
with no row at all; an unexpired unique token row joined to its user row
yields the session view carrying the user's email, name, role, picture
and TOTP flag. -/
theorem get_session_expiry_enforced (db : DB) (now : Int) (sid : String) :
    ((∀ s ∈ db.sessions, s.session_id = sid → s.expires_at ≤ now) →
        get_session db now sid = none)
  ∧ (∀ s u, s ∈ db.sessions → s.session_id = sid → now < s.expires_at →
        (∀ s2 ∈ db.sessions, s2.session_id = sid → s2 = s) →
        db.users.find? (fun v => v.id == s.user_id) = some u →
        get_session db now sid = some (sessionView s u)) := by
  constructor
  · intro hexp
    unfold get_session
    rw [List.find?_eq_none.mpr (by
      intro s hs
      intro habs
      simp only [Bool.and_eq_true, beq_iff_eq, decide_eq_true_eq] at habs
      have := hexp s hs habs.1
      omega)]
  · intro s u hs hsid hnow huniq hu
    unfold get_session
    rw [find?_unique _ db.sessions s hs
      (by simp only [Bool.and_eq_true, beq_iff_eq, decide_eq_true_eq]; exact ⟨hsid, hnow⟩)
      (by
        intro b hb hpb
        simp only [Bool.and_eq_true, beq_iff_eq, decide_eq_true_eq] at hpb
        exact huniq b hb hpb.1)]
    simp only [hu]

/-- C6 witness: a database holding one expired and one live session: the
expired token reads as `None`, identically to an absent token, and the
live token reads as the joined view. -/
theorem get_session_expiry_enforced_check :
    get_session { users := [mkUser 1 "root@example.com" "admin" false],
                  sessions := [mkSession "dead" 1 50] } 100 "dead" = none
  ∧ get_session { users := [mkUser 1 "root@example.com" "admin" false],
                  sessions := [mkSession "dead" 1 50] } 100 "absent" = none
  ∧ get_session { users := [mkUser 1 "root@example.com" "admin" false],
                  sessions := [mkSession "live" 1 200] } 100 "live"
      = some (sessionView (mkSession "live" 1 200) (mkUser 1 "root@example.com" "admin" false)) := by
  refine ⟨?_, ?_, ?_⟩
  · exact (get_session_expiry_enforced _ 100 "dead").1 (by decide)
  · exact (get_session_expiry_enforced _ 100 "absent").1 (by decide)
  · exact (get_session_expiry_enforced _ 100 "live").2 (mkSession "live" 1 200)
      (mkUser 1 "root@example.com" "admin" false) (by decide) (by decide) (by decide)
      (by decide) (by decide)

/-- C2: `get_current_user` yields a session view only when the current
time is before the session's expiry and the 2FA gate passes (the user has
TOTP disabled or the session's verified flag is set); the callback mints
sessions with `is_2fa_verified = not totp_enabled`, so a fresh session of
a non-TOTP user is immediately usable while a fresh session of a TOTP
user is refused until the flag is flipped. -/
theorem session_usability_invariant :
    (∀ (db : DB) (now : Int) (cookie : Option String) (v : SessionView),
        get_current_user db now cookie = some v →
        now < v.expires_at ∧ (v.totp_enabled = false ∨ v.is_2fa_verified = true))
  ∧ (∀ u sid now dh ip ua,
        (callback_session u sid now dh ip ua).is_2fa_verified = !u.totp_enabled)
  ∧ (∀ (u : UserRow) sid now dh ip ua (t : Int), u.totp_enabled = false →
        t < now + dh * 3600 →
        (get_current_user (DB.mk [u] [callback_session u sid now dh ip ua])
            t (some sid)).isSome = true)
  ∧ (∀ (u : UserRow) sid now dh ip ua (t : Int), u.totp_enabled = true →
        get_current_user (DB.mk [u] [callback_session u sid now dh ip ua])
            t (some sid) = none) := by
  refine ⟨?_, ?_, ?_, ?_⟩
  · intro db now cookie v h
    cases cookie with
    | none => exact absurd h (by simp [get_current_user])
    | some sid =>
      have h2 : (match get_session db now sid with
          | none => none
          | some s => if (s.totp_enabled && !s.is_2fa_verified) = true then none
                      else some s) = some v := h
      clear h
      cases hg : get_session db now sid with
      | none => rw [hg] at h2; exact absurd h2 (by simp)
      | some s =>
        rw [hg] at h2
        have h : (if (s.totp_enabled && !s.is_2fa_verified) = true then none
            else some s) = some v := h2
        have hg2 : (match db.sessions.find?
              (fun s => s.session_id == sid && decide (now < s.expires_at)) with
            | none => none
            | some s =>
              match db.users.find? (fun u => u.id == s.user_id) with
              | none => none
              | some u => some (sessionView s u)) = some s := hg
        clear hg
        cases hf : db.sessions.find?
            (fun s => s.session_id == sid && decide (now < s.expires_at)) with
        | none => rw [hf] at hg2; exact absurd hg2 (by simp)
        | some srow =>
          rw [hf] at hg2
          have hg3 : (match db.users.find? (fun u => u.id == srow.user_id) with
              | none => none
              | some u => some (sessionView srow u)) = some s := hg2
          clear hg2
          cases hu : db.users.find? (fun u => u.id == srow.user_id) with
          | none => rw [hu] at hg3; exact absurd hg3 (by simp)
          | some urow =>
            rw [hu] at hg3
            have hsv : s = sessionView srow urow := by
              simpa using hg3.symm
            have hp := List.find?_some hf
            simp only [Bool.and_eq_true, beq_iff_eq, decide_eq_true_eq] at hp
            by_cases hgate : (s.totp_enabled && !s.is_2fa_verified) = true
            · rw [if_pos hgate] at h
              exact absurd h (by simp)
            · rw [if_neg hgate] at h
              have hv : v = s := by simpa using h.symm
              subst hv
              constructor
              · rw [hsv]
                exact hp.2
              · cases he : v.totp_enabled with
                | false => exact Or.inl rfl
                | true =>
                  cases hv2 : v.is_2fa_verified with
                  | true => exact Or.inr rfl
                  | false => exact absurd (by rw [he, hv2]; rfl) hgate
  · intro u sid now dh ip ua
    rfl
  · intro u sid now dh ip ua t htotp ht
    unfold get_current_user get_session
    simp [callback_session, sessionView, List.find?, ht, htotp]
  · intro u sid now dh ip ua t htotp
    unfold get_current_user get_session
    by_cases ht : t < now + dh * 3600
    · simp [callback_session, sessionView, List.find?, ht, htotp]
    · simp [callback_session, sessionView, List.find?, ht]

/-- C2 witness: the invariant at a concrete state — an authenticated read
at time 100 satisfies expiry and the 2FA gate; a fresh non-TOTP session is
minted verified and immediately usable; a fresh TOTP session is refused. -/
theorem session_usability_invariant_check :
    (100 < (sessionView freshNoTotpSession userNoTotp).expires_at
      ∧ ((sessionView freshNoTotpSession userNoTotp).totp_enabled = false
         ∨ (sessionView freshNoTotpSession userNoTotp).is_2fa_verified = true))
  ∧ freshNoTotpSession.is_2fa_verified = true
  ∧ (get_current_user (DB.mk [userNoTotp] [freshNoTotpSession]) 100 (some "tok")).isSome = true
  ∧ get_current_user (DB.mk [userWithTotp] [freshTotpSession]) 100 (some "tok2") = none := by
  refine ⟨?_, ?_, ?_, ?_⟩
  · exact session_usability_invariant.1 (DB.mk [userNoTotp] [freshNoTotpSession]) 100
      (some "tok") (sessionView freshNoTotpSession userNoTotp) (by decide)
  · have h := session_usability_invariant.2.1 userNoTotp "tok" 0 24 none none
    rw [show freshNoTotpSession = callback_session userNoTotp "tok" 0 24 none none from rfl, h]
    decide
  · exact session_usability_invariant.2.2.1 userNoTotp "tok" 0 24 none none 100
      (by decide) (by decide)
  · exact session_usability_invariant.2.2.2 userWithTotp "tok2" 0 24 none none 100 (by decide)

/-! ### Alert counter lemmas -/

theorem bump_self (f : String → Nat) (k : String) (v : Nat) : bump f k v k = v := by
  simp [bump]

theorem check_alerts_login_failed (st : AlertCounters) (a : String) (ha : a ≠ "") :
    check_alerts st EventType.LOGIN_FAILED (some a) =
      (if 5 ≤ st.failedLogin a + 1 then
        ({ st with failedLogin := bump st.failedLogin a 0 }, true)
      else
        ({ st with failedLogin := bump st.failedLogin a (st.failedLogin a + 1) }, false)) := by
  unfold check_alerts
  rw [if_pos ⟨rfl, by simp [pyTruthyOptStr, ha]⟩]
  rfl

/-- C7: starting from a zero failed-login counter for an IP, five
consecutive `LOGIN_FAILED` events from that IP dispatch exactly one alert,
on the fifth event, after which the counter is back at zero; over ten
events the dispatches happen exactly at the fifth and the tenth; and a
`LOGIN_FAILED` without an IP neither dispatches nor touches the state. -/
theorem failed_login_alert_damping (st : AlertCounters) (ip : String) (hip : ip ≠ "")
    (h0 : st.failedLogin ip = 0) :
    ((run_events st (List.replicate 5 (EventType.LOGIN_FAILED, some ip))).2
        = [false, false, false, false, true])
  ∧ ((run_events st (List.replicate 5 (EventType.LOGIN_FAILED, some ip))).1.failedLogin ip = 0)
  ∧ ((run_events st (List.replicate 10 (EventType.LOGIN_FAILED, some ip))).2
        = [false, false, false, false, true, false, false, false, false, true])
  ∧ (∀ st2 : AlertCounters, check_alerts st2 EventType.LOGIN_FAILED none = (st2, false)) := by
  refine ⟨?_, ?_, ?_, ?_⟩
  · simp [List.replicate, run_events, check_alerts_login_failed, hip, bump, h0]
  · simp [List.replicate, run_events, check_alerts_login_failed, hip, bump, h0]
  · simp [List.replicate, run_events, check_alerts_login_failed, hip, bump, h0]
  · intro st2
    unfold check_alerts
    rw [if_neg (by simp [pyTruthyOptStr]), if_neg (by simp [pyTruthyOptStr])]
    rfl

/-- C7 witness: the damping behaviour from the all-zero counter state for
the IP `203.0.113.9`. -/
theorem failed_login_alert_damping_check :
    ((run_events (AlertCounters.mk (fun _ => 0) (fun _ => 0))
        (List.replicate 5 (EventType.LOGIN_FAILED, some "203.0.113.9"))).2
        = [false, false, false, false, true])
  ∧ ((run_events (AlertCounters.mk (fun _ => 0) (fun _ => 0))
        (List.replicate 5 (EventType.LOGIN_FAILED, some "203.0.113.9"))).1.failedLogin
        "203.0.113.9" = 0)
  ∧ ((run_events (AlertCounters.mk (fun _ => 0) (fun _ => 0))
        (List.replicate 10 (EventType.LOGIN_FAILED, some "203.0.113.9"))).2
        = [false, false, false, false, true, false, false, false, false, true]) := by
  have h := failed_login_alert_damping (AlertCounters.mk (fun _ => 0) (fun _ => 0))
    "203.0.113.9" (by decide) rfl
  exact ⟨h.1, h.2.1, h.2.2.1⟩

/-- C8 (amended): `validate_redirect_url` returns the default for empty
input, for any stripped target beginning with `//`, for any stripped
target beginning with a single `/` that contains a backslash, for any
other target whose parse raises or whose scheme is not http/https, and
for any http(s) URL with a nonempty host outside the allow-list; a
stripped target beginning with a single `/` and without a backslash is
returned unchanged after stripping.  (The unamended claim fails: a
backslash inside an allow-listed absolute URL is not rewritten, see the
counterexample.) -/
theorem validate_redirect_amended :
    (∀ d : String, validate_redirect_url "" d = d)
  ∧ (∀ url d : String, url ≠ "" → (pyStripL url.data).take 2 = ['/', '/'] →
        validate_redirect_url url d = d)
  ∧ (∀ url d : String, url ≠ "" → (pyStripL url.data).take 1 = ['/'] →
        '\\' ∈ pyStripL url.data → validate_redirect_url url d = d)
  ∧ (∀ url d : String, url ≠ "" → (pyStripL url.data).take 1 ≠ ['/'] →
        urlparse_scheme_netloc ⟨pyStripL url.data⟩ = none →
        validate_redirect_url url d = d)
  ∧ (∀ url d scheme netloc : String, url ≠ "" → (pyStripL url.data).take 1 ≠ ['/'] →
        urlparse_scheme_netloc ⟨pyStripL url.data⟩ = some (scheme, netloc) →
        scheme ≠ "http" → scheme ≠ "https" →
        validate_redirect_url url d = d)
  ∧ (∀ url d scheme netloc : String, url ≠ "" → (pyStripL url.data).take 1 ≠ ['/'] →
        urlparse_scheme_netloc ⟨pyStripL url.data⟩ = some (scheme, netloc) →
        netloc ≠ "" → asciiLower netloc ∉ ALLOWED_REDIRECT_HOSTS →
        validate_redirect_url url d = d)
  ∧ (∀ url d : String, url ≠ "" → (pyStripL url.data).take 1 = ['/'] →
        (pyStripL url.data).take 2 ≠ ['/', '/'] → '\\' ∉ pyStripL url.data →
        validate_redirect_url url d = pyStrip url) := by
  refine ⟨?_, ?_, ?_, ?_, ?_, ?_, ?_⟩
  · intro d
    simp [validate_redirect_url]
  · intro url d hne h2
    have h1 : (pyStripL url.data).take 1 = ['/'] := by
      cases hu : pyStripL url.data with
      | nil => rw [hu] at h2; simp at h2
      | cons a t =>
        rw [hu] at h2
        cases t with
        | nil => simp at h2
        | cons b t2 =>
          simp only [List.take] at h2 ⊢
          have := List.cons.injEq a [b] '/' ['/'] ▸ h2
          simp at h2
          simp [h2.1]
    simp only [validate_redirect_url]
    rw [if_neg hne, if_pos h1, if_pos h2]
  · intro url d hne h1 hbs
    simp only [validate_redirect_url]
    rw [if_neg hne, if_pos h1]
    by_cases hb : (pyStripL url.data).take 2 = ['/', '/']
    · rw [if_pos hb]
    · rw [if_neg hb, if_pos hbs]
  · intro url d hne h1 hp
    simp only [validate_redirect_url]
    rw [if_neg hne, if_neg h1, hp]
  · intro url d scheme netloc hne h1 hp hs1 hs2
    simp only [validate_redirect_url]
    rw [if_neg hne, if_neg h1, hp]
    show (if scheme ≠ "http" ∧ scheme ≠ "https" then d
          else if netloc ≠ "" ∧ asciiLower netloc ∉ ALLOWED_REDIRECT_HOSTS then d
          else (⟨pyStripL url.data⟩ : String)) = d
    rw [if_pos ⟨hs1, hs2⟩]
  · intro url d scheme netloc hne h1 hp hnet hmem
    simp only [validate_redirect_url]
    rw [if_neg hne, if_neg h1, hp]
    show (if scheme ≠ "http" ∧ scheme ≠ "https" then d
          else if netloc ≠ "" ∧ asciiLower netloc ∉ ALLOWED_REDIRECT_HOSTS then d
          else (⟨pyStripL url.data⟩ : String)) = d
    by_cases hsch : scheme ≠ "http" ∧ scheme ≠ "https"
    · rw [if_pos hsch]
    · rw [if_neg hsch, if_pos ⟨hnet, hmem⟩]
  · intro url d hne h1 h2 hbs
    simp only [validate_redirect_url]
    rw [if_neg hne, if_pos h1, if_neg h2, if_neg hbs]
    rfl

/-- C8 (amended) witness: the branches at concrete redirect targets. -/
theorem validate_redirect_amended_check :
    validate_redirect_url "" "/tools/" = "/tools/"
  ∧ validate_redirect_url "//evil.example" "/tools/" = "/tools/"
  ∧ validate_redirect_url "/a\\b" "/tools/" = "/tools/"
  ∧ validate_redirect_url "http://[oops" "/tools/" = "/tools/"
  ∧ validate_redirect_url "ftp://example.com/x" "/tools/" = "/tools/"
  ∧ validate_redirect_url "https://evil.example/x" "/tools/" = "/tools/"
  ∧ validate_redirect_url " /tools/ " "/next" = "/tools/" := by
  have h := validate_redirect_amended
  refine ⟨h.1 "/tools/", ?_, ?_, ?_, ?_, ?_, ?_⟩
  · exact h.2.1 "//evil.example" "/tools/" (by decide) (by decide)
  · exact h.2.2.1 "/a\\b" "/tools/" (by decide) (by decide) (by decide)
  · exact h.2.2.2.1 "http://[oops" "/tools/" (by decide) (by decide) (by decide)
  · exact h.2.2.2.2.1 "ftp://example.com/x" "/tools/" "ftp" "example.com"
      (by decide) (by decide) (by decide) (by decide) (by decide)
  · exact h.2.2.2.2.2.1 "https://evil.example/x" "/tools/" "https" "evil.example"
      (by decide) (by decide) (by decide) (by decide) (by decide)
  · have hx := h.2.2.2.2.2.2 " /tools/ " "/next" (by decide) (by decide) (by decide) (by decide)
    rw [hx]
    decide

/-! ### Role validation lemmas -/

theorem validate_role_some (s : String) (hs : s ≠ "") :
    validate_role (some s)
      = (if pyStrip (asciiLower s) ∈ VALID_ROLES then pyStrip (asciiLower s) else "user") := by
  show (if (if s = "" then "user" else pyStrip (asciiLower s)) ∈ VALID_ROLES
        then (if s = "" then "user" else pyStrip (asciiLower s)) else "user") = _
  rw [if_neg hs]

/-- C10: `validate_role` is total and always yields a valid role: the
input is lower-cased and stripped and returned when the result is `user`
or `admin`; every other input — including `None` and the empty string —
yields `user`; and the admin role-mutation endpoint stores the coerced
role unconditionally instead of rejecting an unrecognised one. -/
theorem validate_role_total_coercion :
    validate_role none = "user"
  ∧ validate_role (some "") = "user"
  ∧ (∀ r : Option String, validate_role r = "user" ∨ validate_role r = "admin")
  ∧ (∀ s : String, s ≠ "" →
        (pyStrip (asciiLower s) = "user" ∨ pyStrip (asciiLower s) = "admin") →
        validate_role (some s) = pyStrip (asciiLower s))
  ∧ (∀ s : String, pyStrip (asciiLower s) ≠ "user" → pyStrip (asciiLower s) ≠ "admin" →
        validate_role (some s) = "user")
  ∧ (∀ (db : DB) (uid : Nat) (r : String),
        (update_role_endpoint db uid r).2 = true
      ∧ (update_role_endpoint db uid r).1.users =
          db.users.map (fun u => if u.id = uid then { u with role := validate_role (some r) }
                        else u)) := by
  refine ⟨by decide, by decide, ?_, ?_, ?_, ?_⟩
  · intro r
    cases r with
    | none => left; decide
    | some s =>
      by_cases hs : s = ""
      · subst hs; left; decide
      · rw [validate_role_some s hs]
        by_cases hm : pyStrip (asciiLower s) ∈ VALID_ROLES
        · rw [if_pos hm]
          simp only [VALID_ROLES, List.mem_cons, List.mem_singleton] at hm
          simpa using hm
        · rw [if_neg hm]
          left
          rfl
  · intro s hs hval
    rw [validate_role_some s hs, if_pos (by
      rcases hval with h | h <;> simp [VALID_ROLES, h])]
  · intro s h1 h2
    by_cases hs : s = ""
    · subst hs; decide
    · rw [validate_role_some s hs, if_neg (by simp [VALID_ROLES, h1, h2])]
  · intro db uid r
    constructor
    · simp only [update_role_endpoint]
      split <;> rfl
    · simp only [update_role_endpoint, update_user_role, delete_user_sessions]
      split <;> rfl

/-- C10 witness: totality and coercion at concrete inputs, including an
unrecognised role submitted to the admin endpoint. -/
theorem validate_role_total_coercion_check :
    validate_role none = "user"
  ∧ validate_role (some "") = "user"
  ∧ validate_role (some " Admin ") = "admin"
  ∧ validate_role (some "guest") = "user"
  ∧ (update_role_endpoint lastAdminDB 1 "superuser").2 = true
  ∧ (update_role_endpoint lastAdminDB 1 "superuser").1.users
      = [mkUser 1 "root@example.com" "user" false] := by
  have h := validate_role_total_coercion
  refine ⟨h.1, h.2.1, ?_, ?_, ?_, ?_⟩
  · have hx := h.2.2.2.1 " Admin " (by decide) (by decide)
    rw [hx]
    decide
  · exact h.2.2.2.2.1 "guest" (by decide) (by decide)
  · exact (h.2.2.2.2.2 lastAdminDB 1 "superuser").1
  · have hx := (h.2.2.2.2.2 lastAdminDB 1 "superuser").2
    rw [hx]
    decide

end AuthService
